import Mathlib

/-!
Shallow embedding of `src/jenkins/resource_jenkins_credential_ssh.go`
(terraform-provider-jenkins, resource `jenkins_credential_ssh`).

Go strings are modelled as `List Char`; `S` converts a Lean string
literal into that representation.  The Terraform `*schema.ResourceData`
handle is modelled as an explicit record `ResourceData` holding the
schema fields together with the resource identifier (`d.Id()`), and each
lifecycle function becomes a pure function from the current record (and
an environment fixing the outcome of the remote calls the function makes)
to a result record plus diagnostics.  Remote calls (`folderExists`,
`cm.Add`, `cm.GetSingle`, `cm.Update`) are consumed capabilities: their
outcomes are inputs of the embedding.
-/

/-- Convert a Lean string literal to the `List Char` representation used
for Go strings throughout this development. -/
def S (s : String) : List Char := s.data

/-- Go `strings.Split(s, "/")`: splits around each instance of `'/'`;
adjacent separators produce empty segments, and the result always has
one more segment than there are separators (`Split("", "/") = [""]`). -/
def goSplit : List Char → List (List Char)
  | [] => [[]]
  | c :: rest =>
    match goSplit rest with
    | [] => [[]]
    | seg :: segs => if c = '/' then [] :: seg :: segs else (c :: seg) :: segs

/-- Go `strings.Join(xs, "/")`. -/
def joinSlash (xs : List (List Char)) : List Char :=
  List.intercalate ['/'] xs

/-- Go `strings.Trim(s, "/")`: removes all leading and trailing `'/'`
characters. -/
def trimSlashes (s : List Char) : List Char :=
  ((s.dropWhile (fun c => c = '/')).reverse.dropWhile (fun c => c = '/')).reverse

/-- Go `strings.HasSuffix(s, suffix)`. -/
def goHasSuffix (s suffix : List Char) : Bool :=
  suffix.isSuffixOf s

/-- Constant `jenkins.KeySourceDirectEntryType` from the external
gojenkins client library.  Its concrete value is irrelevant to this
resource's behaviour; it is modelled as an abstract token. -/
def KeySourceDirectEntryType : List Char := S "KeySourceDirectEntryType"

/-- `jenkins.PrivateKey` (gojenkins): the private-key source attached to
an SSH credential payload. -/
structure PrivateKey where
  Class : List Char
  Value : List Char
deriving DecidableEq

/-- `jenkins.SSHCredentials` (gojenkins): the remote credential payload.
Field defaults model the Go zero value `jenkins.SSHCredentials{}`.
`Passphrase` is `Option`-valued so that "field never assigned" (Go zero
value, `none`) is distinguished from an explicit assignment (`some`). -/
structure SSHCredentials where
  ID : List Char := []
  Scope : List Char := []
  Description : List Char := []
  Username : List Char := []
  PrivateKeySource : Option PrivateKey := none
  Passphrase : Option (List Char) := none
deriving DecidableEq

/-- The Terraform state handle `*schema.ResourceData`, restricted to the
fields of this resource's schema plus the resource identifier `d.Id()`. -/
structure ResourceData where
  id : List Char := []
  name : List Char := []
  domain : List Char := []
  folder : List Char := []
  scope : List Char := []
  description : List Char := []
  username : List Char := []
  privatekey : List Char := []
  passphrase : List Char := []
deriving DecidableEq

/-- A `ResourceData` with every field at its zero value. -/
def emptyRecord : ResourceData := {}

/-- Modelled from the spec: the body of `generateCredentialID` is not
under src/ (only its call sites are).  The spec fixes the identifier
format as `[<folder>/]<domain>/<name>`, "produced deterministically from
the three fields", with an empty folder omitting the leading segment
(`compose("", "domain", "name") == "domain/name"`).  Call sites in the Go
source pass the folder and the credential name; the domain segment is
taken from the record's domain field as the spec prescribes. -/
def generateCredentialID (folder domain name : List Char) : List Char :=
  if folder = [] then domain ++ '/' :: name
  else folder ++ '/' :: (domain ++ '/' :: name)

/-- Modelled from the spec: the body of `formatFolderName` is not under
src/.  The spec describes the folder argument of the existence probe and
of the credentials manager simply as the record's folder path, with no
transformation, so the function is modelled as the identity. -/
def formatFolderName (folder : List Char) : List Char := folder

/-- Outcome of a `cm.GetSingle` call: either an error (with its message)
or the credential object written into the out-parameter. -/
inductive GetSingleResult where
  | err (msg : List Char)
  | ok (cred : SSHCredentials)
deriving DecidableEq

/-- Message of `diag.Errorf("Could not read ssh credentials: %s", err)`. -/
def readErrMsg (m : List Char) : List Char :=
  S "Could not read ssh credentials: " ++ m

/-- Result of a lifecycle read: the diagnostics (`none` = success) and
the resulting local record. -/
structure ReadResult where
  diag : Option (List Char)
  d : ResourceData
deriving DecidableEq

/-- `resourceJenkinsCredentialSSHRead` (lines 113-142): looks the
credential up by `(domain, name)`; an error whose message ends in "404"
clears the identifier and succeeds, any other error is fatal; on success
the identifier is recomputed and only `scope` and `description` are
copied from the remote object. -/
def resourceJenkinsCredentialSSHRead (g : GetSingleResult) (d : ResourceData) :
    ReadResult :=
  match g with
  | .err msg =>
    if goHasSuffix msg (S "404") then
      { diag := none, d := { d with id := [] } }
    else
      { diag := some (readErrMsg msg), d := d }
  | .ok cred =>
    { diag := none,
      d := { d with
              id := generateCredentialID d.folder d.domain cred.ID,
              scope := cred.Scope,
              description := cred.Description } }

/-- The credential payload built by Create (lines 87-101) and,
identically, by Update (lines 150-164): identity and mutable fields from
the record, a direct-entry private-key source, and the passphrase
assigned only when non-empty. -/
def buildSSHCredential (d : ResourceData) : SSHCredentials :=
  let cred : SSHCredentials :=
    { ID := d.name
      Scope := d.scope
      Description := d.description
      Username := d.username
      PrivateKeySource := some { Class := KeySourceDirectEntryType, Value := d.privatekey } }
  if d.passphrase.length > 0 then { cred with Passphrase := some d.passphrase } else cred

/-- Message of `fmt.Errorf("invalid folder name '%s' specified: %w", cm.Folder, err)`. -/
def configErrMsg (folder e : List Char) : List Char :=
  S "invalid folder name '" ++ folder ++ S "' specified: " ++ e

/-- Message of `diag.Errorf("Could not create ssh credentials: %s", err)`. -/
def createErrMsg (m : List Char) : List Char :=
  S "Could not create ssh credentials: " ++ m

/-- Message of `diag.Errorf("Could not update secret text: %s", err)`. -/
def updateErrMsg (m : List Char) : List Char :=
  S "Could not update secret text: " ++ m

/-- Environment of a Create call: the outcome of the folder-existence
probe (`none` = folder exists), of `cm.Add`, and of the read-back's
`cm.GetSingle`. -/
structure CreateEnv where
  folderExistsErr : Option (List Char)
  addErr : Option (List Char)
  getSingle : GetSingleResult

/-- Result of a Create call; `addCalled` records whether the remote
write `cm.Add` was issued, and `payload` the credential object sent. -/
structure CreateResult where
  diag : Option (List Char)
  d : ResourceData
  addCalled : Bool
  payload : Option SSHCredentials
deriving DecidableEq

/-- `resourceJenkinsCredentialSSHCreate` (lines 77-111): probes the
folder, builds the payload, issues one `cm.Add`, and only after a
successful write assigns the identifier and tail-calls Read. -/
def resourceJenkinsCredentialSSHCreate (env : CreateEnv) (d : ResourceData) :
    CreateResult :=
  match env.folderExistsErr with
  | some e =>
    { diag := some (configErrMsg (formatFolderName d.folder) e)
      d := d, addCalled := false, payload := none }
  | none =>
    let cred := buildSSHCredential d
    match env.addErr with
    | some e =>
      { diag := some (createErrMsg e), d := d, addCalled := true, payload := some cred }
    | none =>
      let d1 : ResourceData := { d with id := generateCredentialID d.folder d.domain cred.ID }
      let r := resourceJenkinsCredentialSSHRead env.getSingle d1
      { diag := r.diag, d := r.d, addCalled := true, payload := some cred }

/-- Environment of an Update call: the outcome of `cm.Update` and of the
read-back's `cm.GetSingle`. -/
structure UpdateEnv where
  updateErr : Option (List Char)
  getSingle : GetSingleResult

/-- Result of an Update call; `payload` is the credential object sent to
`cm.Update`. -/
structure UpdateResult where
  diag : Option (List Char)
  d : ResourceData
  payload : Option SSHCredentials
deriving DecidableEq

/-- `resourceJenkinsCredentialSSHUpdate` (lines 144-173): rebuilds the
full payload, issues `cm.Update`, and on success resets the identifier
and tail-calls Read. -/
def resourceJenkinsCredentialSSHUpdate (env : UpdateEnv) (d : ResourceData) :
    UpdateResult :=
  let cred := buildSSHCredential d
  match env.updateErr with
  | some e => { diag := some (updateErrMsg e), d := d, payload := some cred }
  | none =>
    let d1 : ResourceData := { d with id := generateCredentialID d.folder d.domain cred.ID }
    let r := resourceJenkinsCredentialSSHRead env.getSingle d1
    { diag := r.diag, d := r.d, payload := some cred }

/-- Message of the import format error (line 196). -/
def importFormatErrMsg : List Char :=
  S "import ID was improperly formatted. Imports need to be in the format \"[<folder>/]<domain>/<name>\""

/-- Result of an Import call: the returned error (`none` = success) and
the resulting record (Go returns the record in both cases). -/
structure ImportResult where
  err : Option (List Char)
  d : ResourceData
deriving DecidableEq

/-- `resourceJenkinsCredentialSSHImport` (lines 191-210): splits `d.Id()`
on `'/'`; fewer than two segments is a format error; otherwise the last
segment is the name, the one before it the domain, and the remaining
prefix, rejoined with `'/'` and trimmed of leading/trailing slashes, the
folder; finally the identifier is recomputed from the parsed parts. -/
def resourceJenkinsCredentialSSHImport (d : ResourceData) : ImportResult :=
  let splitID := goSplit d.id
  if splitID.length < 2 then
    { err := some importFormatErrMsg, d := d }
  else
    let name := splitID.getD (splitID.length - 1) []
    let domain := splitID.getD (splitID.length - 2) []
    let folder := trimSlashes (joinSlash (splitID.take (splitID.length - 2)))
    { err := none,
      d := { d with
              name := name
              domain := domain
              folder := folder
              id := generateCredentialID folder domain name } }

/-! ### Support lemmas about the Go string helpers -/

theorem goSplit_ne_nil (s : List Char) : goSplit s ≠ [] := by
  cases s with
  | nil => simp [goSplit]
  | cons c t =>
    simp only [goSplit]
    cases goSplit t with
    | nil => simp
    | cons seg segs => by_cases h : c = '/' <;> simp [h]

theorem goSplit_of_not_mem (s : List Char) (h : '/' ∉ s) : goSplit s = [s] := by
  induction s with
  | nil => rfl
  | cons c t ih =>
    have hc : ¬ c = '/' := fun hx => h (hx ▸ List.mem_cons_self c t)
    have ht : '/' ∉ t := fun hm => h (List.mem_cons_of_mem c hm)
    simp only [goSplit, ih ht]
    simp [hc]

theorem goSplit_append (a s : List Char) (h : '/' ∉ a) :
    goSplit (a ++ '/' :: s) = a :: goSplit s := by
  induction a with
  | nil =>
    cases hs : goSplit s with
    | nil => exact absurd hs (goSplit_ne_nil s)
    | cons seg segs => simp [goSplit, hs]
  | cons c a ih =>
    have hc : ¬ c = '/' := fun hx => h (hx ▸ List.mem_cons_self c a)
    have ha : '/' ∉ a := fun hm => h (List.mem_cons_of_mem c hm)
    simp only [List.cons_append, goSplit, List.append_eq]
    rw [ih ha]
    simp [hc]

theorem dropWhile_slash_of_not_mem (s : List Char) (h : '/' ∉ s) :
    s.dropWhile (fun c => c = '/') = s := by
  cases s with
  | nil => rfl
  | cons c t =>
    have hc : ¬ c = '/' := fun hx => h (hx ▸ List.mem_cons_self c t)
    simp [List.dropWhile_cons, hc]

theorem trimSlashes_of_not_mem (s : List Char) (h : '/' ∉ s) :
    trimSlashes s = s := by
  unfold trimSlashes
  rw [dropWhile_slash_of_not_mem s h]
  have h2 : '/' ∉ s.reverse := by simpa using h
  rw [dropWhile_slash_of_not_mem _ h2, List.reverse_reverse]

theorem joinSlash_nil : joinSlash [] = [] := by
  simp [joinSlash, List.intercalate]

theorem joinSlash_singleton (x : List Char) : joinSlash [x] = x := by
  simp [joinSlash, List.intercalate]

/-! ### Claim theorems -/

/-- C3: a Read whose remote `GetSingle` error ends in "404" clears the
record's identifier and returns no error; a Read whose remote error does
not end in "404" returns a fatal error. -/
theorem read_404_clears_id_other_errors_fatal (d : ResourceData) (msg : List Char) :
    (goHasSuffix msg (S "404") = true →
      resourceJenkinsCredentialSSHRead (.err msg) d =
        { diag := none, d := { d with id := [] } }) ∧
    (goHasSuffix msg (S "404") = false →
      resourceJenkinsCredentialSSHRead (.err msg) d =
        { diag := some (readErrMsg msg), d := d }) := by
  constructor <;> intro h <;> simp [resourceJenkinsCredentialSSHRead, h]

theorem read_404_clears_id_other_errors_fatal_witness :
    resourceJenkinsCredentialSSHRead (.err (S "jenkins said: 404")) emptyRecord =
      { diag := none, d := { emptyRecord with id := [] } } ∧
    resourceJenkinsCredentialSSHRead (.err (S "boom")) emptyRecord =
      { diag := some (readErrMsg (S "boom")), d := emptyRecord } :=
  ⟨(read_404_clears_id_other_errors_fatal emptyRecord (S "jenkins said: 404")).1 (by decide),
   (read_404_clears_id_other_errors_fatal emptyRecord (S "boom")).2 (by decide)⟩

/-- C6: a successful Read refreshes only `scope` and `description` (and
recomputes the identifier); every other field of the local record, in
particular `privatekey` and `passphrase`, is left unchanged whatever the
remote object contains. -/
theorem read_success_frame (d : ResourceData) (cred : SSHCredentials) :
    (resourceJenkinsCredentialSSHRead (.ok cred) d).diag = none ∧
    (resourceJenkinsCredentialSSHRead (.ok cred) d).d.scope = cred.Scope ∧
    (resourceJenkinsCredentialSSHRead (.ok cred) d).d.description = cred.Description ∧
    (resourceJenkinsCredentialSSHRead (.ok cred) d).d.privatekey = d.privatekey ∧
    (resourceJenkinsCredentialSSHRead (.ok cred) d).d.passphrase = d.passphrase ∧
    (resourceJenkinsCredentialSSHRead (.ok cred) d).d.name = d.name ∧
    (resourceJenkinsCredentialSSHRead (.ok cred) d).d.domain = d.domain ∧
    (resourceJenkinsCredentialSSHRead (.ok cred) d).d.folder = d.folder ∧
    (resourceJenkinsCredentialSSHRead (.ok cred) d).d.username = d.username := by
  simp [resourceJenkinsCredentialSSHRead]

/-- C9: a Read failing with a remote error not ending in "404" leaves
the local record entirely unchanged (identifier included) and returns
the fatal diagnostic. -/
theorem read_error_keeps_record (d : ResourceData) (msg : List Char)
    (h : goHasSuffix msg (S "404") = false) :
    resourceJenkinsCredentialSSHRead (.err msg) d =
      { diag := some (readErrMsg msg), d := d } := by
  simp [resourceJenkinsCredentialSSHRead, h]

theorem read_error_keeps_record_witness :
    resourceJenkinsCredentialSSHRead (.err (S "500 oops")) emptyRecord =
      { diag := some (readErrMsg (S "500 oops")), d := emptyRecord } :=
  read_error_keeps_record emptyRecord (S "500 oops") (by decide)

/-- C2: importing the identifier "teamA/_/my-key" sets
folder = "teamA", domain = "_", name = "my-key" and the record's
identifier to "teamA/_/my-key". -/
theorem import_three_segment_example :
    (resourceJenkinsCredentialSSHImport { emptyRecord with id := S "teamA/_/my-key" }).err = none ∧
    (resourceJenkinsCredentialSSHImport { emptyRecord with id := S "teamA/_/my-key" }).d.folder = S "teamA" ∧
    (resourceJenkinsCredentialSSHImport { emptyRecord with id := S "teamA/_/my-key" }).d.domain = S "_" ∧
    (resourceJenkinsCredentialSSHImport { emptyRecord with id := S "teamA/_/my-key" }).d.name = S "my-key" ∧
    (resourceJenkinsCredentialSSHImport { emptyRecord with id := S "teamA/_/my-key" }).d.id = S "teamA/_/my-key" := by
  decide

/-- C7: importing the two-segment identifier "_/my-key" sets
folder = "" (empty), domain = "_", name = "my-key". -/
theorem import_two_segment_example :
    (resourceJenkinsCredentialSSHImport { emptyRecord with id := S "_/my-key" }).err = none ∧
    (resourceJenkinsCredentialSSHImport { emptyRecord with id := S "_/my-key" }).d.folder = [] ∧
    (resourceJenkinsCredentialSSHImport { emptyRecord with id := S "_/my-key" }).d.domain = S "_" ∧
    (resourceJenkinsCredentialSSHImport { emptyRecord with id := S "_/my-key" }).d.name = S "my-key" := by
  decide

/-- C8: importing an identifier containing no '/' (a single segment)
fails with the format error describing the required
"[<folder>/]<domain>/<name>" shape, leaving the record unchanged. -/
theorem import_single_segment_fails (d : ResourceData) (h : '/' ∉ d.id) :
    resourceJenkinsCredentialSSHImport d =
      { err := some importFormatErrMsg, d := d } := by
  simp [resourceJenkinsCredentialSSHImport, goSplit_of_not_mem d.id h]

theorem import_single_segment_fails_witness :
    resourceJenkinsCredentialSSHImport { emptyRecord with id := S "my-key" } =
      { err := some importFormatErrMsg, d := { emptyRecord with id := S "my-key" } } :=
  import_single_segment_fails { emptyRecord with id := S "my-key" } (by decide)

/-- C10: every import identifier splitting into at least two segments is
accepted (no error), with no validation of segment contents; in
particular importing "//" succeeds with name, domain and folder all
empty. -/
theorem import_no_segment_validation (d : ResourceData)
    (h : 2 ≤ (goSplit d.id).length) :
    (resourceJenkinsCredentialSSHImport d).err = none ∧
    ((resourceJenkinsCredentialSSHImport { emptyRecord with id := S "//" }).err = none ∧
     (resourceJenkinsCredentialSSHImport { emptyRecord with id := S "//" }).d.name = [] ∧
     (resourceJenkinsCredentialSSHImport { emptyRecord with id := S "//" }).d.domain = [] ∧
     (resourceJenkinsCredentialSSHImport { emptyRecord with id := S "//" }).d.folder = []) := by
  constructor
  · simp only [resourceJenkinsCredentialSSHImport]
    rw [if_neg (by omega)]
  · decide

theorem import_no_segment_validation_witness :
    (resourceJenkinsCredentialSSHImport { emptyRecord with id := S "a/b" }).err = none ∧
    ((resourceJenkinsCredentialSSHImport { emptyRecord with id := S "//" }).err = none ∧
     (resourceJenkinsCredentialSSHImport { emptyRecord with id := S "//" }).d.name = [] ∧
     (resourceJenkinsCredentialSSHImport { emptyRecord with id := S "//" }).d.domain = [] ∧
     (resourceJenkinsCredentialSSHImport { emptyRecord with id := S "//" }).d.folder = []) :=
  import_no_segment_validation { emptyRecord with id := S "a/b" } (by decide)

/-- C1 (counterexample): the round-trip claim restricted only by
"folder contains no '/'" fails when the domain contains a '/': with
folder = "" (slash-free), domain = "a/b", name = "n", the composed
identifier parses back with domain "b", not "a/b". -/
theorem compose_parse_roundtrip_counterexample :
    '/' ∉ ([] : List Char) ∧
    (resourceJenkinsCredentialSSHImport
        { emptyRecord with id := generateCredentialID [] (S "a/b") (S "n") }).d.domain
      ≠ S "a/b" := by
  decide

/-- C1 (amended): for every triple (folder, domain, name) in which none
of the three components contains a '/', importing the composed
identifier succeeds and recovers exactly the original triple. -/
theorem compose_parse_roundtrip (d : ResourceData) (folder domain name : List Char)
    (hid : d.id = generateCredentialID folder domain name)
    (hf : '/' ∉ folder) (hd : '/' ∉ domain) (hn : '/' ∉ name) :
    (resourceJenkinsCredentialSSHImport d).err = none ∧
    (resourceJenkinsCredentialSSHImport d).d.folder = folder ∧
    (resourceJenkinsCredentialSSHImport d).d.domain = domain ∧
    (resourceJenkinsCredentialSSHImport d).d.name = name := by
  by_cases h : folder = []
  · subst h
    have hsplit : goSplit d.id = [domain, name] := by
      rw [hid]
      unfold generateCredentialID
      rw [if_pos rfl, goSplit_append domain name hd, goSplit_of_not_mem name hn]
    simp [resourceJenkinsCredentialSSHImport, hsplit, joinSlash_nil, trimSlashes]
  · have hsplit : goSplit d.id = [folder, domain, name] := by
      rw [hid]
      unfold generateCredentialID
      rw [if_neg h, goSplit_append folder _ hf, goSplit_append domain name hd,
        goSplit_of_not_mem name hn]
    simp [resourceJenkinsCredentialSSHImport, hsplit, joinSlash_singleton,
      trimSlashes_of_not_mem folder hf]

theorem compose_parse_roundtrip_witness :
    (resourceJenkinsCredentialSSHImport
        { emptyRecord with id := generateCredentialID (S "teamA") (S "_") (S "key") }).err = none ∧
    (resourceJenkinsCredentialSSHImport
        { emptyRecord with id := generateCredentialID (S "teamA") (S "_") (S "key") }).d.folder = S "teamA" ∧
    (resourceJenkinsCredentialSSHImport
        { emptyRecord with id := generateCredentialID (S "teamA") (S "_") (S "key") }).d.domain = S "_" ∧
    (resourceJenkinsCredentialSSHImport
        { emptyRecord with id := generateCredentialID (S "teamA") (S "_") (S "key") }).d.name = S "key" :=
  compose_parse_roundtrip
    { emptyRecord with id := generateCredentialID (S "teamA") (S "_") (S "key") }
    (S "teamA") (S "_") (S "key") rfl (by decide) (by decide) (by decide)

/-- C4: a Create whose folder-existence probe fails returns the
configuration error naming the invalid folder and issues no remote
write; a Create whose probe succeeds but whose remote Add fails returns
an error with the local record unchanged, so the identifier is assigned
only after Add succeeds. -/
theorem create_error_paths (env : CreateEnv) (d : ResourceData) :
    (∀ e, env.folderExistsErr = some e →
      resourceJenkinsCredentialSSHCreate env d =
        { diag := some (configErrMsg (formatFolderName d.folder) e)
          d := d, addCalled := false, payload := none }) ∧
    (∀ e, env.folderExistsErr = none → env.addErr = some e →
      resourceJenkinsCredentialSSHCreate env d =
        { diag := some (createErrMsg e)
          d := d, addCalled := true, payload := some (buildSSHCredential d) }) := by
  constructor
  · intro e h
    simp [resourceJenkinsCredentialSSHCreate, h]
  · intro e h1 h2
    simp [resourceJenkinsCredentialSSHCreate, h1, h2]

theorem create_error_paths_witness :
    (resourceJenkinsCredentialSSHCreate
        { folderExistsErr := some (S "no such folder"), addErr := none,
          getSingle := .err (S "x") }
        { emptyRecord with folder := S "bad" } =
      { diag := some (configErrMsg (formatFolderName (S "bad")) (S "no such folder"))
        d := { emptyRecord with folder := S "bad" }, addCalled := false, payload := none }) ∧
    (resourceJenkinsCredentialSSHCreate
        { folderExistsErr := none, addErr := some (S "add failed"),
          getSingle := .err (S "x") }
        emptyRecord =
      { diag := some (createErrMsg (S "add failed"))
        d := emptyRecord, addCalled := true, payload := some (buildSSHCredential emptyRecord) }) :=
  ⟨((create_error_paths
      { folderExistsErr := some (S "no such folder"), addErr := none, getSingle := .err (S "x") }
      { emptyRecord with folder := S "bad" }).1 (S "no such folder") rfl),
   ((create_error_paths
      { folderExistsErr := none, addErr := some (S "add failed"), getSingle := .err (S "x") }
      emptyRecord).2 (S "add failed") rfl rfl)⟩

/-- C5: the payload sent by a Create that passes the folder probe, and
by every Update, is `buildSSHCredential d`; that payload carries the
record's passphrase exactly when it is non-empty and leaves the
passphrase field unset when the record's passphrase is empty. -/
theorem payload_passphrase (env : CreateEnv) (uenv : UpdateEnv) (d : ResourceData)
    (h : env.folderExistsErr = none) :
    (resourceJenkinsCredentialSSHCreate env d).payload = some (buildSSHCredential d) ∧
    (resourceJenkinsCredentialSSHUpdate uenv d).payload = some (buildSSHCredential d) ∧
    (d.passphrase ≠ [] → (buildSSHCredential d).Passphrase = some d.passphrase) ∧
    (d.passphrase = [] → (buildSSHCredential d).Passphrase = none) := by
  refine ⟨?_, ?_, ?_, ?_⟩
  · cases h2 : env.addErr <;>
      simp [resourceJenkinsCredentialSSHCreate, h, h2]
  · cases h2 : uenv.updateErr <;>
      simp [resourceJenkinsCredentialSSHUpdate, h2]
  · intro hp
    have : d.passphrase.length > 0 := List.length_pos.mpr hp
    simp [buildSSHCredential, this]
  · intro hp
    simp [buildSSHCredential, hp]

theorem payload_passphrase_witness :
    ((resourceJenkinsCredentialSSHCreate
        { folderExistsErr := none, addErr := some (S "e"), getSingle := .err (S "x") }
        { emptyRecord with passphrase := S "pw" }).payload =
      some (buildSSHCredential { emptyRecord with passphrase := S "pw" }) ∧
     (resourceJenkinsCredentialSSHUpdate
        { updateErr := some (S "e"), getSingle := .err (S "x") }
        { emptyRecord with passphrase := S "pw" }).payload =
      some (buildSSHCredential { emptyRecord with passphrase := S "pw" }) ∧
     (({ emptyRecord with passphrase := S "pw" } : ResourceData).passphrase ≠ [] →
      (buildSSHCredential { emptyRecord with passphrase := S "pw" }).Passphrase =
        some ({ emptyRecord with passphrase := S "pw" } : ResourceData).passphrase) ∧
     (({ emptyRecord with passphrase := S "pw" } : ResourceData).passphrase = [] →
      (buildSSHCredential { emptyRecord with passphrase := S "pw" }).Passphrase = none)) ∧
    (emptyRecord.passphrase = [] → (buildSSHCredential emptyRecord).Passphrase = none) :=
  ⟨payload_passphrase
      { folderExistsErr := none, addErr := some (S "e"), getSingle := .err (S "x") }
      { updateErr := some (S "e"), getSingle := .err (S "x") }
      { emptyRecord with passphrase := S "pw" } rfl,
   (payload_passphrase
      { folderExistsErr := none, addErr := some (S "e"), getSingle := .err (S "x") }
      { updateErr := some (S "e"), getSingle := .err (S "x") }
      emptyRecord rfl).2.2.2⟩
